import Mathlib

/-!
Verification development for the memory-management diagnostic layer of bmem.h:
the diagnostic heap allocator (debugAlloc / debugRealloc / debugFree with canary
guards, the intrusive ring of live-block records and global heap statistics) and
the thread-local temporary-storage arena (talloc / tempMark / tempReset with its
own statistics).

Modelling conventions:
- Heap memory is a finite map from block addresses (the value returned by the
  general-purpose allocator for the block) to `HeapBlockInfo` records; the
  payload pointer handed to callers is identified with the block address.
- `size_t` counters are modelled as `Nat`; every theorem below stays within
  ranges where the C program performs no 64-bit wraparound, so truncated
  subtraction agrees with the source on all exercised paths.
- `time_t` timestamps are a `Nat` "current time" parameter threaded to the
  operations that call `time(NULL)` in the source (`debugFree` calls no clock
  function in the source, so it takes no time parameter).
- `double` accumulators (running averages) are modelled exactly over `ℚ`; all
  values reached in the theorems below are small integers, which IEEE doubles
  represent exactly.
- `B_ASSERT(cond)` is the assert collaborator: an operation whose asserted
  condition is false raises the corresponding fatal error (`Except.error`)
  instead of continuing, matching the default `<assert.h>` collaborator of a
  debug build.
-/

namespace BMem

/-- Fatal errors signalled through the assert collaborator (spec taxonomy). -/
inductive BErr where
  | corruptionDetected
  | invalidMark
  | invalidArgument
deriving DecidableEq

/-- Call-site metadata: `__FILE__`, `__func__`, `__LINE__`. -/
structure Site where
  file : String
  func : String
  line : Int
deriving DecidableEq

/-- The bytes of the 8-byte header watermark pattern "ORHEADER". -/
def orHeader : List Nat := [79, 82, 72, 69, 65, 68, 69, 82]

/-- The bytes of the 8-byte footer watermark pattern "ORFOOTER". -/
def orFooter : List Nat := [79, 82, 70, 79, 79, 84, 69, 82]

/-- The 8 bytes of a `size_t` value in memory (little-endian LP64). -/
def natLEBytes8 (n : Nat) : List Nat :=
  [n % 256, n / 256 % 256, n / 256 ^ 2 % 256, n / 256 ^ 3 % 256,
   n / 256 ^ 4 % 256, n / 256 ^ 5 % 256, n / 256 ^ 6 % 256, n / 256 ^ 7 % 256]

/-- One record per tracked allocation (struct HeapBlockInfo), together with the
two watermark canaries the block owns: `header` sits between the record and the
payload, `footer` directly after the payload. `debugAlloc` writes both patterns;
no other operation of the source ever rewrites them. -/
structure HeapBlockInfo where
  size : Nat
  size0 : Nat
  time : Nat
  time0 : Nat
  file : String
  file0 : String
  func : String
  func0 : String
  line : Int
  line0 : Int
  prev : Nat
  next : Nat
  header : List Nat
  footer : List Nat
deriving DecidableEq

/-- struct HeapStats; `avgAllocLifespan` is a C double, modelled over `ℚ`. -/
structure HeapStats where
  totalNumAllocs : Nat
  totalNumReallocs : Nat
  totalNumFrees : Nat
  totalBytesAlloced : Nat
  totalBytesFreed : Nat
  currNumAllocs : Nat
  currBytesAlloced : Nat
  maxNumAllocs : Nat
  maxBytesAlloced : Nat
  avgAllocLifespan : ℚ
deriving DecidableEq

/-- The tracked heap: a finite map from block addresses to block records. -/
abbrev Heap := List (Nat × HeapBlockInfo)

def hlookup (h : Heap) (a : Nat) : Option HeapBlockInfo :=
  match h with
  | [] => none
  | (k, b) :: t => if k = a then some b else hlookup t a

def hremove (h : Heap) (a : Nat) : Heap :=
  match h with
  | [] => []
  | (k, b) :: t => if k = a then hremove t a else (k, b) :: hremove t a

/-- Bind address `a` to record `b` (a fresh allocation at `a`). -/
def hinsert (h : Heap) (a : Nat) (b : HeapBlockInfo) : Heap :=
  (a, b) :: hremove h a

/-- Write through a pointer: update the record at address `a`, if it is live.
A write through a dangling address (freed memory, undefined behaviour in C)
touches no live record. -/
def hset (h : Heap) (a : Nat) (f : HeapBlockInfo → HeapBlockInfo) : Heap :=
  match h with
  | [] => []
  | (k, b) :: t => if k = a then (k, f b) :: hset t a f else (k, b) :: hset t a f

/-- The process-wide state of the diagnostic heap allocator:
`b__firstHeapBlock` and `b__heapStats`, plus the tracked blocks themselves. -/
structure HeapState where
  heap : Heap
  firstHeapBlock : Option Nat
  stats : HeapStats
deriving DecidableEq

def initHeapStats : HeapStats :=
  { totalNumAllocs := 0, totalNumReallocs := 0, totalNumFrees := 0,
    totalBytesAlloced := 0, totalBytesFreed := 0, currNumAllocs := 0,
    currBytesAlloced := 0, maxNumAllocs := 0, maxBytesAlloced := 0,
    avgAllocLifespan := 0 }

def initHeapState : HeapState :=
  { heap := [], firstHeapBlock := none, stats := initHeapStats }

/-- b__checkForOverrun (bmem.h:292-302). Returns `headerGood && footerGood`.
`footer` is read at `memory + block->size`, the footer canary. The `header`
pointer, however, is computed as `memory - sizeof(HeapBlockInfo)`: that is
`sizeof(b__WaterMark)` = 8 bytes past the start of the block record, i.e. (on a
little-endian LP64 layout, where `size` occupies bytes 0-7 and `size0` bytes
8-15 of the struct) the in-memory bytes of the `size0` field -- not the 8 bytes
directly before the payload where `debugAlloc` wrote "ORHEADER". The model
reads exactly those bytes. -/
def b__checkForOverrun (a : Nat) (s : HeapState) : Bool :=
  match hlookup s.heap a with
  | none => false
  | some block =>
    let headerGood := natLEBytes8 block.size0 == orHeader
    let footerGood := block.footer == orFooter
    headerGood && footerGood

/-- Scenario operation for the corruption claims: an overrun (or any external
write) replaces byte `i` of the footer canary of the block at `a` by `v`. -/
def corruptFooterByte (a i v : Nat) (s : HeapState) : HeapState :=
  { s with heap := hset s.heap a (fun b => { b with footer := b.footer.set i v }) }

/-- debugAlloc (bmem.h:304-347). `addr` is the (fresh) address returned by the
general-purpose allocator, `now` the value of `time(NULL)`. Returns the payload
pointer (identified with the block address) and the new allocator state. -/
def debugAlloc (size : Nat) (site : Site) (now addr : Nat) (s : HeapState) :
    Option Nat × HeapState :=
  if size = 0 then (none, s)
  else
    let block : HeapBlockInfo :=
      { size := size, size0 := size, time := now, time0 := now,
        file := site.file, file0 := site.file, func := site.func,
        func0 := site.func, line := site.line, line0 := site.line,
        prev := 0, next := 0, header := orHeader, footer := orFooter }
    let h0 := hinsert s.heap addr block
    -- if (!b__firstHeapBlock) { b__firstHeapBlock = block; b__firstHeapBlock->prev = b__firstHeapBlock; }
    let first : Nat :=
      match s.firstHeapBlock with
      | none => addr
      | some f => f
    let h1 :=
      match s.firstHeapBlock with
      | none => hset h0 addr (fun b => { b with prev := addr })
      | some _ => h0
    -- block->next = b__firstHeapBlock;
    let h2 := hset h1 addr (fun b => { b with next := first })
    -- block->prev = b__firstHeapBlock->prev;   (call the value read here p)
    let p := ((hlookup h2 first).map (fun b => b.prev)).getD 0
    let h3 := hset h2 addr (fun b => { b with prev := p })
    -- b__firstHeapBlock->prev->next = block;   (first->prev still reads p: the
    -- write above changed only block.prev, and when block aliases first the
    -- written value is p itself)
    let h4 := hset h3 p (fun b => { b with next := addr })
    -- b__firstHeapBlock->prev = block;
    let h5 := hset h4 first (fun b => { b with prev := addr })
    let st := s.stats
    let currNum := st.currNumAllocs + 1
    let currBytes := st.currBytesAlloced + size
    let stats' : HeapStats :=
      { st with
        totalNumAllocs := st.totalNumAllocs + 1,
        totalBytesAlloced := st.totalBytesAlloced + size,
        currNumAllocs := currNum,
        maxNumAllocs := if currNum > st.maxNumAllocs then currNum else st.maxNumAllocs,
        currBytesAlloced := currBytes,
        maxBytesAlloced := if currBytes > st.maxBytesAlloced then currBytes else st.maxBytesAlloced }
    (some addr, { heap := h5, firstHeapBlock := some first, stats := stats' })

/-- The part of debugFree (bmem.h:404-429) after the canary assert: unlink the
block from the ring, update the stats, release the block. A free of an address
that is not a live tracked block is undefined behaviour in C; the model leaves
the state unchanged on that path (no theorem exercises it). -/
def debugFreeBody (a : Nat) (s : HeapState) : HeapState :=
  match hlookup s.heap a with
  | none => s
  | some block =>
    let h1 :=
      if block.next = block.prev then
        -- either 1 or 2 active allocations
        let other := block.next
        hset (hset s.heap other (fun b => { b with next := other })) other
          (fun b => { b with prev := other })
      else
        hset (hset s.heap block.next (fun b => { b with prev := block.prev }))
          block.prev (fun b => { b with next := block.next })
    -- if (block == b__firstHeapBlock) b__firstHeapBlock = b__firstHeapBlock->next;
    -- (first->next is re-read after the unlink writes above)
    let first1 :=
      if s.firstHeapBlock = some a then
        some (((hlookup h1 a).map (fun b => b.next)).getD 0)
      else s.firstHeapBlock
    -- if (block == b__firstHeapBlock) b__firstHeapBlock = NULL;
    let first2 := if first1 = some a then none else first1
    -- lifespan = difftime(block->time, block->time0): the source reads no
    -- clock in debugFree; this is last-update time minus original-alloc time.
    let lifespan : ℚ := (block.time : ℚ) - (block.time0 : ℚ)
    let frees := s.stats.totalNumFrees + 1
    let stats' : HeapStats :=
      { s.stats with
        totalNumFrees := frees,
        totalBytesFreed := s.stats.totalBytesFreed + block.size,
        currNumAllocs := s.stats.currNumAllocs - 1,
        currBytesAlloced := s.stats.currBytesAlloced - block.size,
        avgAllocLifespan := s.stats.avgAllocLifespan +
          (lifespan - s.stats.avgAllocLifespan) / (frees : ℚ) }
    { heap := hremove h1 a, firstHeapBlock := first2, stats := stats' }

/-- debugFree (bmem.h:394-430). `mem` is the payload pointer (`none` = NULL,
a no-op). `int isOverrun = b__checkForOverrun(mem); B_ASSERT(!isOverrun);`:
the asserted condition is `!isOverrun`, so the collaborator raises
CorruptionDetected exactly when `b__checkForOverrun` returns true. -/
def debugFree (mem : Option Nat) (s : HeapState) : Except BErr HeapState :=
  match mem with
  | none => .ok s
  | some a =>
    if b__checkForOverrun a s then .error .corruptionDetected
    else .ok (debugFreeBody a s)

/-- The part of debugRealloc (bmem.h:360-391) after the canary assert. `addr'`
is the address returned by `heapRealloc` (`addr' = a` when the block was
resized in place, a different fresh address when it was relocated; the record,
including its `prev`/`next` fields, is copied to the new address). -/
def debugReallocBody (a size : Nat) (site : Site) (now addr' : Nat) (s : HeapState) :
    Option Nat × HeapState :=
  match hlookup s.heap a with
  | none => (none, s)
  | some block =>
    let h0 := hinsert (hremove s.heap a) addr' block
    -- block->prev->next = block;
    let h1 := hset h0 block.prev (fun b => { b with next := addr' })
    -- block->next->prev = block;   (block->next is re-read after the write above)
    let n := ((hlookup h1 addr').map (fun b => b.next)).getD 0
    let h2 := hset h1 n (fun b => { b with prev := addr' })
    -- if (block == b__firstHeapBlock) b__firstHeapBlock = block;
    -- block here is the NEW address, so this assignment can never change
    -- b__firstHeapBlock (translated literally).
    let first' := if s.firstHeapBlock = some addr' then some addr' else s.firstHeapBlock
    -- block->size = size; block->file = file; block->func = func;
    -- block->line = line; block->time = time(NULL);
    let h3 := hset h2 addr' (fun b =>
      { b with size := size, file := site.file, func := site.func,
               line := site.line, time := now })
    -- size_t size0 = block->size0;
    let size0 := block.size0
    let st1 : HeapStats := { s.stats with totalNumReallocs := s.stats.totalNumReallocs + 1 }
    let st2 : HeapStats :=
      if size > size0 then
        { st1 with totalBytesAlloced := st1.totalBytesAlloced + (size - size0),
                   currBytesAlloced := st1.currBytesAlloced + (size - size0) }
      else
        { st1 with totalBytesFreed := st1.totalBytesFreed + (size0 - size),
                   currBytesAlloced := st1.currBytesAlloced - (size0 - size) }
    -- if (b__heapStats.totalBytesAlloced > b__heapStats.maxBytesAlloced)
    --     b__heapStats.maxBytesAlloced = b__heapStats.totalBytesAlloced;
    let st3 : HeapStats :=
      if st2.totalBytesAlloced > st2.maxBytesAlloced then
        { st2 with maxBytesAlloced := st2.totalBytesAlloced }
      else st2
    (some addr', { heap := h3, firstHeapBlock := first', stats := st3 })

/-- debugRealloc (bmem.h:349-392). -/
def debugRealloc (mem : Option Nat) (size : Nat) (site : Site) (now addr' : Nat)
    (s : HeapState) : Except BErr (Option Nat × HeapState) :=
  if size = 0 then
    match debugFree mem s with
    | .ok s' => .ok (none, s')
    | .error e => .error e
  else
    match mem with
    | none => .ok (debugAlloc size site now addr' s)
    | some a =>
      if b__checkForOverrun a s then .error .corruptionDetected
      else .ok (debugReallocBody a size site now addr' s)

/-! Ring-shape predicate for the block registry (the invariant stated by the
spec: empty, or a single circular doubly-linked ring holding every live block
exactly once). -/

def heapAddrs (h : Heap) : List Nat := h.map (fun p => p.1)

def nextOf (h : Heap) (a : Nat) : Nat := ((hlookup h a).map (fun b => b.next)).getD 0

def prevOf (h : Heap) (a : Nat) : Nat := ((hlookup h a).map (fun b => b.prev)).getD 0

/-- The addresses visited by following `next` pointers `n` times from `a`. -/
def orbit (h : Heap) : Nat → Nat → List Nat
  | _, 0 => []
  | a, n + 1 => a :: orbit h (nextOf h a) n

def nodupB : List Nat → Bool
  | [] => true
  | x :: xs => !(xs.contains x) && nodupB xs

/-- The registry invariant: either no anchor and no block, or the anchor names
a live block, every live block's `prev`/`next` name live blocks and are
mutually inverse, and following `next` from the anchor visits every live block
exactly once. -/
def ringOk (s : HeapState) : Bool :=
  match s.firstHeapBlock with
  | none => s.heap.isEmpty
  | some f =>
    let as := heapAddrs s.heap
    let ring := orbit s.heap f as.length
    as.contains f &&
    as.all (fun a =>
      as.contains (nextOf s.heap a) && as.contains (prevOf s.heap a) &&
      prevOf s.heap (nextOf s.heap a) == a &&
      nextOf s.heap (prevOf s.heap a) == a) &&
    as.all (fun a => ring.contains a) &&
    nodupB ring

/-! The temporary-storage arena. -/

/-- struct TempMemStats; the two averages are C doubles, modelled over `ℚ`.
The arena cursor is `currBytesAlloced` (the source keeps no separate offset). -/
structure TempMemStats where
  totalNumAllocs : Nat
  totalNumFullResets : Nat
  totalBytesAlloced : Nat
  currBytesAlloced : Nat
  maxBytesAlloced : Nat
  totalNumLeaks : Nat
  totalBytesLeaked : Nat
  numAllocsSinceFullReset : Nat
  bytesAllocedSinceFullReset : Nat
  avgNumAllocsPerResetCycle : ℚ
  avgBytesAllocedPerResetCycle : ℚ
deriving DecidableEq

def initTempMemStats : TempMemStats :=
  { totalNumAllocs := 0, totalNumFullResets := 0, totalBytesAlloced := 0,
    currBytesAlloced := 0, maxBytesAlloced := 0, totalNumLeaks := 0,
    totalBytesLeaked := 0, numAllocsSinceFullReset := 0,
    bytesAllocedSinceFullReset := 0, avgNumAllocsPerResetCycle := 0,
    avgBytesAllocedPerResetCycle := 0 }

/-- A pointer returned by talloc: either an offset into the thread-local arena
buffer `b__tempMem`, or a heap fallback allocation. -/
inductive TPtr where
  | arena (offset : Nat)
  | heap (addr : Nat)
deriving DecidableEq

/-- `if (align == 0) align = 8;` -/
def defaultedAlign (align : Nat) : Nat := if align = 0 then 8 else align

/-- b__roundUpPow2 (bmem.h:473-477). `x & (pow2 - 1) == 0` tests `x % pow2 == 0`
and `(x + pow2) & ~(pow2 - 1)` clears the low bits of `x + pow2`, i.e. rounds
it down to a multiple of `pow2` -- exact for `pow2` a power of two, written
here in the equivalent arithmetic form (no 64-bit wraparound is exercised). -/
def b__roundUpPow2 (x pow2 : Nat) : Nat :=
  if x % pow2 = 0 then x
  else (x + pow2) - (x + pow2) % pow2

/-- talloc (bmem.h:479-505) in the default debug configuration, where the
`malloc` in the overflow-fallback branch is the intercepted macro
(bmem.h:230-234) and therefore calls debugAlloc. `cap` is B_TEMP_MEM_SIZE,
`site`/`now`/`addr` feed the fallback debugAlloc call.
`B_ASSERT((align & (align - 1)) == 0)` raises InvalidArgument on a
non-power-of-two alignment. -/
def talloc (cap size align : Nat) (site : Site) (now addr : Nat)
    (t : TempMemStats) (h : HeapState) :
    Except BErr (Option TPtr × TempMemStats × HeapState) :=
  let al := defaultedAlign align
  if (al &&& (al - 1)) != 0 then .error .invalidArgument
  else
    let memStart := b__roundUpPow2 t.currBytesAlloced al
    let memEnd := memStart + size
    if memEnd > cap then
      -- temp mem leak! log, count, fall back to (intercepted) malloc
      let t' := { t with totalNumLeaks := t.totalNumLeaks + 1,
                         totalBytesLeaked := t.totalBytesLeaked + size }
      let ph := debugAlloc size site now addr h
      .ok ((ph.1).map TPtr.heap, t', ph.2)
    else
      let t' : TempMemStats := { t with
        bytesAllocedSinceFullReset := t.bytesAllocedSinceFullReset + (memEnd - memStart),
        numAllocsSinceFullReset := t.numAllocsSinceFullReset + 1,
        totalNumAllocs := t.totalNumAllocs + 1,
        currBytesAlloced := memEnd,
        totalBytesAlloced := t.totalBytesAlloced + (memEnd - memStart) }
      let t'' : TempMemStats :=
        if t'.currBytesAlloced > t'.maxBytesAlloced then
          { t' with maxBytesAlloced := t'.currBytesAlloced }
        else t'
      .ok (some (TPtr.arena memStart), t'', h)

/-- tempMark (bmem.h:521-523): returns the current cursor. -/
def tempMark (t : TempMemStats) : Nat := t.currBytesAlloced

/-- The part of tempReset (bmem.h:525-549) after the mark assert. The final
line of the source resets `numAllocsSinceFullReset` unconditionally, outside
the `mark == 0` block. -/
def tempResetBody (mark : Nat) (t : TempMemStats) : TempMemStats :=
  let t1 :=
    if mark = 0 then
      -- full reset: fold this cycle into the running averages
      let resets := t.totalNumFullResets + 1
      { t with
        totalNumFullResets := resets,
        avgBytesAllocedPerResetCycle := t.avgBytesAllocedPerResetCycle +
          ((t.bytesAllocedSinceFullReset : ℚ) - t.avgBytesAllocedPerResetCycle) / (resets : ℚ),
        avgNumAllocsPerResetCycle := t.avgNumAllocsPerResetCycle +
          ((t.numAllocsSinceFullReset : ℚ) - t.avgNumAllocsPerResetCycle) / (resets : ℚ),
        numAllocsSinceFullReset := 0,
        bytesAllocedSinceFullReset := 0 }
    else t
  { t1 with currBytesAlloced := mark, numAllocsSinceFullReset := 0 }

/-- tempReset (bmem.h:525-549). `B_ASSERT(newMark <= currMark)` raises
InvalidMark when violated. (The debug-build zeroing of the reclaimed buffer
bytes touches only the byte buffer, which carries no tracked state here.) -/
def tempReset (mark : Nat) (t : TempMemStats) : Except BErr TempMemStats :=
  if mark ≤ t.currBytesAlloced then .ok (tempResetBody mark t)
  else .error .invalidMark

/-! Runners: project the payload of an `Except` result (the default is the
initial state; every theorem below pins conjuncts that the defaults cannot
satisfy, so the runners never mask a raised error). -/

def isOkB {α : Type} (e : Except BErr α) : Bool :=
  match e with
  | .ok _ => true
  | .error _ => false

def okStateD (e : Except BErr HeapState) : HeapState :=
  match e with
  | .ok s => s
  | .error _ => initHeapState

def okPairD (e : Except BErr (Option Nat × HeapState)) : Option Nat × HeapState :=
  match e with
  | .ok p => p
  | .error _ => (none, initHeapState)

def okTempD (e : Except BErr TempMemStats) : TempMemStats :=
  match e with
  | .ok t => t
  | .error _ => initTempMemStats

def okTallocD (e : Except BErr (Option TPtr × TempMemStats × HeapState)) :
    Option TPtr × TempMemStats × HeapState :=
  match e with
  | .ok r => r
  | .error _ => (none, initTempMemStats, initHeapState)

def runTallocPtr (e : Except BErr (Option TPtr × TempMemStats × HeapState)) : Option TPtr :=
  (okTallocD e).1

/-- A talloc request: size, alignment and the collaborator inputs of the call. -/
structure TReq where
  size : Nat
  align : Nat
  site : Site
  now : Nat
  addr : Nat
deriving DecidableEq

def tallocStep (cap : Nat) (st : TempMemStats × HeapState) (r : TReq) :
    TempMemStats × HeapState :=
  match talloc cap r.size r.align r.site r.now r.addr st.1 st.2 with
  | .ok (_, t, h) => (t, h)
  | .error _ => st

def tallocSeq (cap : Nat) (reqs : List TReq) (st : TempMemStats × HeapState) :
    TempMemStats × HeapState :=
  reqs.foldl (tallocStep cap) st

/-- A fixed call site used by the concrete scenarios. -/
def site0 : Site := { file := "a.c", func := "f", line := 10 }

/-! Map lemmas for the heap. -/

theorem hlookup_hremove (h : Heap) (a x : Nat) :
    hlookup (hremove h a) x = if x = a then none else hlookup h x := by
  induction h with
  | nil => simp [hremove, hlookup]
  | cons hd t ih =>
    obtain ⟨k, b⟩ := hd
    by_cases hka : k = a <;> by_cases hkx : k = x <;>
      simp_all [hremove, hlookup]

theorem hlookup_hinsert (h : Heap) (a : Nat) (b : HeapBlockInfo) (x : Nat) :
    hlookup (hinsert h a b) x = if x = a then some b else hlookup h x := by
  by_cases hxa : x = a
  · subst hxa; simp [hinsert, hlookup]
  · rw [if_neg hxa]
    show (if a = x then some b else hlookup (hremove h a) x) = hlookup h x
    rw [if_neg (fun h => hxa (Eq.symm h)), hlookup_hremove, if_neg hxa]

theorem hlookup_hset (h : Heap) (a x : Nat) (f : HeapBlockInfo → HeapBlockInfo) :
    hlookup (hset h a f) x = if x = a then (hlookup h a).map f else hlookup h x := by
  induction h with
  | nil => by_cases hxa : x = a <;> simp [hset, hlookup, hxa]
  | cons hd t ih =>
    obtain ⟨k, b⟩ := hd
    by_cases hka : k = a <;> by_cases hkx : k = x <;> by_cases hxa : x = a <;>
      simp_all [hset, hlookup]

/-! Characterizations of debugAlloc used by the general theorems. -/

theorem debugAlloc_fst (size : Nat) (site : Site) (now addr : Nat) (s : HeapState)
    (hn : size ≠ 0) :
    (debugAlloc size site now addr s).1 = some addr := by
  unfold debugAlloc
  rw [if_neg hn]

theorem debugAlloc_stats (size : Nat) (site : Site) (now addr : Nat) (s : HeapState)
    (hn : size ≠ 0) :
    (debugAlloc size site now addr s).2.stats =
      { s.stats with
        totalNumAllocs := s.stats.totalNumAllocs + 1,
        totalBytesAlloced := s.stats.totalBytesAlloced + size,
        currNumAllocs := s.stats.currNumAllocs + 1,
        maxNumAllocs :=
          if s.stats.currNumAllocs + 1 > s.stats.maxNumAllocs then s.stats.currNumAllocs + 1
          else s.stats.maxNumAllocs,
        currBytesAlloced := s.stats.currBytesAlloced + size,
        maxBytesAlloced :=
          if s.stats.currBytesAlloced + size > s.stats.maxBytesAlloced then
            s.stats.currBytesAlloced + size
          else s.stats.maxBytesAlloced } := by
  unfold debugAlloc
  rw [if_neg hn]
  try rfl

theorem debugAlloc_firstHeapBlock_isSome (size : Nat) (site : Site) (now addr : Nat)
    (s : HeapState) (hn : size ≠ 0) :
    (debugAlloc size site now addr s).2.firstHeapBlock.isSome = true := by
  unfold debugAlloc
  rw [if_neg hn]
  try rfl

/-- The record just allocated at `addr`: its size fields hold the requested
size and its footer canary holds the pattern (its ring links depend on the
prior registry shape and are not characterized here). -/
theorem debugAlloc_lookup_self (size : Nat) (site : Site) (now addr : Nat) (s : HeapState)
    (hn : size ≠ 0) :
    (hlookup (debugAlloc size site now addr s).2.heap addr).map
        (fun b => (b.size, b.size0, b.footer))
      = some (size, size, orFooter) := by
  unfold debugAlloc
  rw [if_neg hn]
  cases s.firstHeapBlock <;>
    · simp only [hlookup_hset, hlookup_hinsert, if_pos rfl]
      split_ifs <;> first | rfl | omega

/-- For every block of realistic size (below 2^56 bytes), the misaimed header
check reads `size0` bytes that cannot spell "ORHEADER", so
`b__checkForOverrun` returns false. -/
theorem checkForOverrun_false_of_small (a : Nat) (s : HeapState) (b : HeapBlockInfo)
    (hb : hlookup s.heap a = some b) (hsz : b.size0 < 2 ^ 56) :
    b__checkForOverrun a s = false := by
  unfold b__checkForOverrun
  rw [hb]
  have h7 : b.size0 / 256 ^ 7 = 0 := by
    apply Nat.div_eq_of_lt
    calc b.size0 < 2 ^ 56 := hsz
    _ = 256 ^ 7 := by norm_num
  have hne : (natLEBytes8 b.size0 == orHeader) = false := by
    apply beq_eq_false_iff_ne.mpr
    intro h
    simp only [natLEBytes8, orHeader, List.cons.injEq, and_true] at h
    rw [h7] at h
    omega
  simp [hne]

/-- The stats transformation of the body of debugFree, for a live block. -/
theorem debugFreeBody_stats (a : Nat) (s : HeapState) (b : HeapBlockInfo)
    (hb : hlookup s.heap a = some b) :
    (debugFreeBody a s).stats =
      { s.stats with
        totalNumFrees := s.stats.totalNumFrees + 1,
        totalBytesFreed := s.stats.totalBytesFreed + b.size,
        currNumAllocs := s.stats.currNumAllocs - 1,
        currBytesAlloced := s.stats.currBytesAlloced - b.size,
        avgAllocLifespan := s.stats.avgAllocLifespan +
          (((b.time : ℚ) - (b.time0 : ℚ)) - s.stats.avgAllocLifespan) /
            ((s.stats.totalNumFrees + 1 : Nat) : ℚ) } := by
  unfold debugFreeBody
  rw [hb]

/-! Arithmetic facts about the arena cursor. -/

theorem defaultedAlign_pos (align : Nat) : 1 ≤ defaultedAlign align := by
  unfold defaultedAlign
  split <;> omega

theorem roundUpPow2_ge (x a : Nat) (ha : 1 ≤ a) : x ≤ b__roundUpPow2 x a := by
  unfold b__roundUpPow2
  split
  · exact Nat.le_refl x
  · have h1 : (x + a) % a = x % a := Nat.add_mod_right x a
    have h2 : x % a < a := Nat.mod_lt x ha
    omega

theorem roundUpPow2_of_dvd (x a : Nat) (hd : a ∣ x) :
    b__roundUpPow2 x a = x := by
  obtain ⟨k, rfl⟩ := hd
  unfold b__roundUpPow2
  rw [if_pos (Nat.mul_mod_right a k)]

/-- A talloc call that returns never moves the arena cursor backwards (an
in-capacity call advances it, an overflowing call leaves it unchanged). -/
theorem talloc_ok_cursor (cap size align : Nat) (site : Site) (now addr : Nat)
    (t : TempMemStats) (h : HeapState) (r : Option TPtr × TempMemStats × HeapState)
    (heq : talloc cap size align site now addr t h = .ok r) :
    t.currBytesAlloced ≤ r.2.1.currBytesAlloced := by
  simp only [talloc] at heq
  split at heq
  · exact absurd heq (by simp)
  · split at heq
    · injection heq with heq
      subst heq
      exact Nat.le_refl _
    · injection heq with heq
      subst heq
      have h1 : t.currBytesAlloced ≤ b__roundUpPow2 t.currBytesAlloced (defaultedAlign align) :=
        roundUpPow2_ge _ _ (defaultedAlign_pos align)
      split <;> · simp only; omega

theorem tallocStep_cursor_mono (cap : Nat) (st : TempMemStats × HeapState) (r : TReq) :
    st.1.currBytesAlloced ≤ (tallocStep cap st r).1.currBytesAlloced := by
  unfold tallocStep
  split
  next p t' h' heq => exact talloc_ok_cursor _ _ _ _ _ _ _ _ _ heq
  next => exact Nat.le_refl _

theorem tallocSeq_cursor_mono (cap : Nat) (reqs : List TReq) (st : TempMemStats × HeapState) :
    st.1.currBytesAlloced ≤ (tallocSeq cap reqs st).1.currBytesAlloced := by
  induction reqs generalizing st with
  | nil => exact Nat.le_refl _
  | cons r rs ih =>
    exact Nat.le_trans (tallocStep_cursor_mono cap st r) (ih (tallocStep cap st r))

/-! Claim C1: state after allocating one 8-byte block at address 1 (time 0),
and the same state with one byte of the footer canary flipped. -/

def c1_alloced : HeapState := (debugAlloc 8 site0 0 1 initHeapState).2

def c1_corrupted : HeapState := corruptFooterByte 1 0 120 c1_alloced

/-- Claim C1. The claim says: a flipped footer-canary byte makes `free` raise
CorruptionDetected, and intact canaries let `free` complete without raising.
In the code, `free` NEVER raises: `b__checkForOverrun` reads the header canary
at the wrong offset (`memory - sizeof(HeapBlockInfo)`, which lands on the
`size0` field of the metadata record instead of the 8 bytes before the
payload), so its intact-test is false for every realistic block -- and its
result is additionally used with inverted sense (`B_ASSERT(!isOverrun)` where
the function returns canaries-GOOD). Concretely: with the footer corrupted the
check still returns false, the assert condition `!isOverrun` is true, and
`debugFree` completes (totalNumFrees becomes 1) instead of raising. -/
theorem c1_corruption_never_detected :
    b__checkForOverrun 1 c1_corrupted = false
    ∧ isOkB (debugFree (some 1) c1_corrupted) = true
    ∧ (okStateD (debugFree (some 1) c1_corrupted)).stats.totalNumFrees = 1
    ∧ b__checkForOverrun 1 c1_alloced = false
    ∧ isOkB (debugFree (some 1) c1_alloced) = true := by
  decide

/-! Claim C2: allocate 10 bytes at address 1, reallocate it to 20 bytes, then
reallocate it again to 30 bytes (the block never moves). -/

def c2_s1 : HeapState := (debugAlloc 10 site0 0 1 initHeapState).2

def c2_s2 : HeapState := (okPairD (debugRealloc (some 1) 20 site0 1 1 c2_s1)).2

def c2_s3 : HeapState := (okPairD (debugRealloc (some 1) 30 site0 2 1 c2_s2)).2

/-- Claim C2. The claim says reallocate changes `currBytesAlloced` by
`newSize - previousSize` (previousSize = the size as of the most recent
realloc), in particular for a block already reallocated once. The code
computes the delta from `block->size0`, the ORIGINAL allocation size, which
realloc never updates: reallocating 10 -> 20 -> 30 adds `30 - 10 = 20` at the
second realloc instead of `30 - 20 = 10`, leaving `currBytesAlloced = 40`
(and `totalBytesAlloced = 40`) while the only live block is 30 bytes. -/
theorem c2_realloc_delta_uses_original_size :
    c2_s2.stats.currBytesAlloced = 20
    ∧ c2_s3.stats.currBytesAlloced = 40
    ∧ (hlookup c2_s3.heap 1).map (fun b => b.size) = some 30
    ∧ c2_s3.stats.totalBytesAlloced = 40
    ∧ c2_s3.stats.currNumAllocs = 1 := by
  decide

/-! Claim C3: allocate 10 bytes, free it, allocate 5 bytes, reallocate the
5-byte block to 6 bytes. `currBytesAlloced` never exceeds 10 in this run. -/

def c3_s1 : HeapState := (debugAlloc 10 site0 0 1 initHeapState).2

def c3_s2 : HeapState := okStateD (debugFree (some 1) c3_s1)

def c3_s3 : HeapState := (debugAlloc 5 site0 1 2 c3_s2).2

def c3_s4 : HeapState := (okPairD (debugRealloc (some 2) 6 site0 2 2 c3_s3)).2

/-- Claim C3. The claim says `maxBytesAlloced` always equals the peak that
`currBytesAlloced` has reached, and a realloc never pushes it above that peak.
In `debugRealloc` the high-water update compares and assigns
`totalBytesAlloced` (the cumulative counter) instead of `currBytesAlloced`:
after alloc 10 / free / alloc 5 / realloc to 6, `currBytesAlloced` took the
values 10, 0, 5, 6 (peak 10), yet `maxBytesAlloced` ends at 16 =
`totalBytesAlloced`. -/
theorem c3_realloc_inflates_max_bytes :
    c3_s1.stats.currBytesAlloced = 10
    ∧ c3_s2.stats.currBytesAlloced = 0
    ∧ c3_s2.stats.totalNumFrees = 1
    ∧ c3_s3.stats.currBytesAlloced = 5
    ∧ c3_s4.stats.currBytesAlloced = 6
    ∧ c3_s1.stats.maxBytesAlloced = 10
    ∧ c3_s3.stats.maxBytesAlloced = 10
    ∧ c3_s4.stats.maxBytesAlloced = 16 := by
  decide

/-! Claim C4: allocate 10 bytes at wall time 0, never reallocate it, free it
(the free happens at wall time 5, which the code never reads). -/

def c4_s1 : HeapState := (debugAlloc 10 site0 0 1 initHeapState).2

def c4_s2 : HeapState := okStateD (debugFree (some 1) c4_s1)

/-- Following the spec's words: the running-average lifespan after the very
first free, for a block allocated at `allocTime` and freed at `freeTime`, is
`0 + ((freeTime - allocTime) - 0) / 1 = freeTime - allocTime`. -/
def spec_avgLifespanAfterFirstFree (allocTime freeTime : Nat) : ℚ :=
  (freeTime : ℚ) - (allocTime : ℚ)

/-- Claim C4. The claim says free folds `freeTime - originalAllocTime` into the
running average lifespan, which for a never-reallocated block is the (nonzero)
time from allocation to free. `debugFree` never reads the clock: it folds
`difftime(block->time, block->time0)`, and for a never-reallocated block
`time == time0`, so the folded value is 0. Concretely: block allocated at time
0 and freed 5 seconds later yields `avgAllocLifespan = 0`, where the spec's
value is 5. -/
theorem c4_lifespan_ignores_free_time :
    c4_s2.stats.totalNumFrees = 1
    ∧ c4_s2.stats.totalBytesFreed = 10
    ∧ c4_s2.stats.avgAllocLifespan = 0
    ∧ spec_avgLifespanAfterFirstFree 0 5 = 5
    ∧ spec_avgLifespanAfterFirstFree 0 5 ≠ c4_s2.stats.avgAllocLifespan := by
  have hchk : b__checkForOverrun 1 c4_s1 = false := by decide
  have hb : hlookup c4_s1.heap 1 =
      some { size := 10, size0 := 10, time := 0, time0 := 0, file := "a.c",
             file0 := "a.c", func := "f", func0 := "f", line := 10, line0 := 10,
             prev := 1, next := 1, header := orHeader, footer := orFooter } := by
    decide
  have hfrees : c4_s1.stats.totalNumFrees = 0 := by decide
  have havg : c4_s1.stats.avgAllocLifespan = 0 := rfl
  have h2 : c4_s2 = debugFreeBody 1 c4_s1 := by
    show okStateD (debugFree (some 1) c4_s1) = _
    simp [debugFree, hchk, okStateD]
  have havg2 : c4_s2.stats.avgAllocLifespan = 0 := by
    rw [h2]
    unfold debugFreeBody
    rw [hb]
    simp only [hfrees, havg]
    norm_num
  refine ⟨by decide, by decide,
          havg2, by norm_num [spec_avgLifespanAfterFirstFree],
          by rw [havg2]; norm_num [spec_avgLifespanAfterFirstFree]⟩

/-! Claim C5: one arena allocation of 8 bytes (cursor at 8), then a partial
reset back to mark 4. -/

def c5_t1 : TempMemStats :=
  (okTallocD (talloc 1024 8 1 site0 0 1 initTempMemStats initHeapState)).2.1

/-- Claim C5. The claim says a partial reset (`0 < mark <= cursor`) leaves both
per-cycle counters and both running averages unchanged. The last line of
`tempReset` zeroes `numAllocsSinceFullReset` unconditionally, outside the
`mark == 0` block: after one talloc (counter = 1), `tempReset(4)` moves the
cursor to 4 and clears the counter to 0. The record equation pins the whole
frame: exactly `currBytesAlloced` and `numAllocsSinceFullReset` changed (so
`bytesAllocedSinceFullReset` and both averages were indeed untouched). -/
theorem c5_partial_reset_clears_alloc_counter :
    c5_t1.numAllocsSinceFullReset = 1
    ∧ c5_t1.currBytesAlloced = 8
    ∧ isOkB (tempReset 4 c5_t1) = true
    ∧ okTempD (tempReset 4 c5_t1)
        = { c5_t1 with currBytesAlloced := 4, numAllocsSinceFullReset := 0 } := by
  decide

/-! Claim C6: a single live 10-byte block at address 1 (it is the ring anchor),
then a realloc to 20 bytes that relocates the block to address 2. -/

def c6_s1 : HeapState := (debugAlloc 10 site0 0 1 initHeapState).2

def c6_s2 : HeapState := (okPairD (debugRealloc (some 1) 20 site0 1 2 c6_s1)).2

/-- Claim C6. The claim says the registry is always empty or a single circular
doubly-linked ring over exactly the live blocks, including after a relocating
realloc. After relocating the sole (anchor) block from address 1 to address 2:
the re-anchoring line `if (block == b__firstHeapBlock) b__firstHeapBlock =
block;` compares the NEW pointer and is a no-op, so the anchor still names the
freed address 1; and the neighbor fix-up wrote through the block's stale
self-links into the freed memory, leaving the relocated block's own prev/next
still pointing at address 1. The ring invariant (which held before) fails. -/
theorem c6_ring_broken_by_relocating_realloc :
    ringOk c6_s1 = true
    ∧ (hlookup c6_s2.heap 2).map (fun b => (b.size, b.prev, b.next)) = some (20, 1, 1)
    ∧ c6_s2.firstHeapBlock = some 1
    ∧ hlookup c6_s2.heap 1 = none
    ∧ ringOk c6_s2 = false := by
  decide

/-! Claim C8, spec Scenario A: arena capacity 1024; two allocations of 600
bytes with alignment 8. Addresses 1 and 7 are the fallback heap addresses. -/

def c8_step1 : Option TPtr × TempMemStats × HeapState :=
  okTallocD (talloc 1024 600 8 site0 0 1 initTempMemStats initHeapState)

def c8_step2 : Option TPtr × TempMemStats × HeapState :=
  okTallocD (talloc 1024 600 8 site0 1 7 c8_step1.2.1 c8_step1.2.2)

/-- Claim C8 (confirmed). With capacity 1024, `talloc(600, 8)` on an empty
arena returns arena offset 0; the second `talloc(600, 8)` does not fit in the
remaining 424 bytes, takes the overflow fallback, still hands the caller
usable memory (a heap pointer, not an error/null), and afterwards
`totalNumLeaks = 1` and `totalBytesLeaked = 600`. -/
theorem c8_scenarioA_overflow_fallback :
    c8_step1.1 = some (TPtr.arena 0)
    ∧ c8_step1.2.1.currBytesAlloced = 600
    ∧ c8_step2.1 = some (TPtr.heap 7)
    ∧ c8_step2.2.1.totalNumLeaks = 1
    ∧ c8_step2.2.1.totalBytesLeaked = 600
    ∧ c8_step2.2.1.currBytesAlloced = 600 := by
  decide

/-! Claim C9 counterexample trace: cursor at 1 (after a 1-byte allocation),
mark m = 1 taken there, an in-capacity 8-byte/align-8 allocation, reset back
to m, then the next 8-byte/align-8 allocation. -/

def c9_t1 : TempMemStats :=
  (okTallocD (talloc 1024 1 1 site0 0 1 initTempMemStats initHeapState)).2.1

def c9_t2 : TempMemStats :=
  (okTallocD (talloc 1024 8 8 site0 0 2 c9_t1 initHeapState)).2.1

def c9_t3 : TempMemStats := okTempD (tempReset (tempMark c9_t1) c9_t2)

/-- Claim C9, counterexample to the claim as stated. With the mark taken at
cursor m = 1, after reset(m) the next allocation (8 bytes, alignment 8) does
NOT reuse the byte range starting at offset m: it starts at offset 8, the
alignment-rounded cursor. -/
theorem c9_next_alloc_not_at_mark :
    tempMark c9_t1 = 1
    ∧ c9_t3.currBytesAlloced = 1
    ∧ runTallocPtr (talloc 1024 8 8 site0 0 3 c9_t3 initHeapState)
        = some (TPtr.arena 8)
    ∧ some (TPtr.arena 8) ≠ some (TPtr.arena (tempMark c9_t1)) := by
  decide

/-! Claim C10 counterexample trace: capacity 1024, cursor at 1023, then a
zero-byte request with alignment 2048. -/

def c10_t1 : TempMemStats :=
  (okTallocD (talloc 1024 1023 1 site0 0 1 initTempMemStats initHeapState)).2.1

def c10_res : Except BErr (Option TPtr × TempMemStats × HeapState) :=
  talloc 1024 0 2048 site0 0 5 c10_t1 initHeapState

/-- Claim C10, counterexample to the claim as stated. With cursor 1023 and
capacity 1024, `talloc(0, 2048)` overflows (the aligned start is 2048 > 1024):
the overflow branch runs (`totalNumLeaks` becomes 1), but because the
requested size is 0 the fallback `debugAlloc` returns null and tracks
nothing -- the heap tracker's `totalNumAllocs` stays 0 and no block is
inserted, contrary to the claim's "every arena allocation that overflows". -/
theorem c10_zero_size_overflow_untracked :
    c10_t1.currBytesAlloced = 1023
    ∧ (okTallocD c10_res).2.1.totalNumLeaks = 1
    ∧ (okTallocD c10_res).2.1.totalBytesLeaked = 0
    ∧ (okTallocD c10_res).1 = none
    ∧ (okTallocD c10_res).2.2.stats.totalNumAllocs = 0
    ∧ (okTallocD c10_res).2.2.heap = [] := by
  decide

/-- Claim C7 (confirmed). For every starting heap state and every allocatable
size n > 0 (below 2^56 bytes; only the unallocatable size whose little-endian
bytes spell "ORHEADER" escapes the model), free(allocate(n, site)) completes
and leaves `currNumAllocs` and `currBytesAlloced` at their pre-allocate
values: allocate adds (1, n) and free, whose (misaimed, inverted) canary
assert passes on every such block, subtracts (1, block.size) with
block.size = n. -/
theorem c7_free_alloc_roundtrip (s : HeapState) (n now addr : Nat) (site : Site)
    (hn : 0 < n) (hsz : n < 2 ^ 56) :
    (debugFree (some addr) (debugAlloc n site now addr s).2).map
        (fun s2 => (s2.stats.currNumAllocs, s2.stats.currBytesAlloced))
      = .ok (s.stats.currNumAllocs, s.stats.currBytesAlloced) := by
  have hn' : n ≠ 0 := Nat.pos_iff_ne_zero.mp hn
  obtain ⟨b, hb, hbp⟩ :=
    Option.map_eq_some'.mp (debugAlloc_lookup_self n site now addr s hn')
  simp only [Prod.mk.injEq] at hbp
  obtain ⟨hbsize, hbsize0, -⟩ := hbp
  have hchk : b__checkForOverrun addr (debugAlloc n site now addr s).2 = false :=
    checkForOverrun_false_of_small _ _ b hb (by rw [hbsize0]; exact hsz)
  simp only [debugFree, hchk, Bool.false_eq_true, if_false, Except.map]
  rw [debugFreeBody_stats addr _ b hb, debugAlloc_stats n site now addr s hn']
  simp only [Except.ok.injEq, Prod.mk.injEq]
  constructor
  · simp
  · simp [hbsize]

/-- Witness for C7: one 1-byte allocation at address 1 from the initial state. -/
theorem c7_free_alloc_roundtrip_witness :
    0 < 1 ∧ (1 : Nat) < 2 ^ 56 ∧
    (debugFree (some 1) (debugAlloc 1 site0 0 1 initHeapState).2).map
        (fun s2 => (s2.stats.currNumAllocs, s2.stats.currBytesAlloced))
      = .ok (initHeapState.stats.currNumAllocs, initHeapState.stats.currBytesAlloced) :=
  ⟨Nat.one_pos, by norm_num,
   c7_free_alloc_roundtrip initHeapState 1 0 1 site0 Nat.one_pos (by norm_num)⟩

/-- Claim C9, amended. After any sequence of arena allocations from a state
whose cursor is the mark m, `reset(m)` is legal (the cursor never moved below
m) and rolls the cursor back to m; the next allocation then starts at the
smallest multiple of its (defaulted) alignment that is ≥ m -- exactly at m
whenever that alignment divides m -- and this is the same offset that an
allocation with that alignment obtained from the original state, which gives
the 3-objects scenario: re-allocating after reset(m) with the alignment of the
first object yields that first object's starting offset. -/
theorem c9_amended_reset_reuses_aligned_offset (cap : Nat) (t0 : TempMemStats)
    (h0 h1 h2 : HeapState) (reqs : List TReq) (size align : Nat)
    (site site' : Site) (now now' addr addr' : Nat)
    (hpow : defaultedAlign align &&& (defaultedAlign align - 1) = 0)
    (hfit : b__roundUpPow2 (tempMark t0) (defaultedAlign align) + size ≤ cap) :
    tempReset (tempMark t0) (tallocSeq cap reqs (t0, h0)).1 =
        .ok (tempResetBody (tempMark t0) (tallocSeq cap reqs (t0, h0)).1)
    ∧ (tempResetBody (tempMark t0) (tallocSeq cap reqs (t0, h0)).1).currBytesAlloced
        = tempMark t0
    ∧ runTallocPtr (talloc cap size align site' now' addr'
          (tempResetBody (tempMark t0) (tallocSeq cap reqs (t0, h0)).1) h2)
        = some (TPtr.arena (b__roundUpPow2 (tempMark t0) (defaultedAlign align)))
    ∧ runTallocPtr (talloc cap size align site now addr t0 h1)
        = some (TPtr.arena (b__roundUpPow2 (tempMark t0) (defaultedAlign align)))
    ∧ (defaultedAlign align ∣ tempMark t0 →
        b__roundUpPow2 (tempMark t0) (defaultedAlign align) = tempMark t0) := by
  have hmono : tempMark t0 ≤ (tallocSeq cap reqs (t0, h0)).1.currBytesAlloced :=
    tallocSeq_cursor_mono cap reqs (t0, h0)
  have hreset : tempReset (tempMark t0) (tallocSeq cap reqs (t0, h0)).1 =
      .ok (tempResetBody (tempMark t0) (tallocSeq cap reqs (t0, h0)).1) := by
    unfold tempReset
    rw [if_pos hmono]
  have hcur : (tempResetBody (tempMark t0) (tallocSeq cap reqs (t0, h0)).1).currBytesAlloced
      = tempMark t0 := by
    unfold tempResetBody
    split <;> rfl
  have halloc : ∀ (t : TempMemStats) (h : HeapState) (st : Site) (nw ad : Nat),
      t.currBytesAlloced = tempMark t0 →
      runTallocPtr (talloc cap size align st nw ad t h)
        = some (TPtr.arena (b__roundUpPow2 (tempMark t0) (defaultedAlign align))) := by
    intro t h st nw ad hc
    simp only [talloc]
    rw [hpow]
    simp only [bne_self_eq_false, Bool.false_eq_true, if_false, hc]
    rw [if_neg (by omega)]
    rfl
  exact ⟨hreset, hcur, halloc _ h2 site' now' addr' hcur, halloc t0 h1 site now addr rfl,
         fun hd => roundUpPow2_of_dvd _ _ hd⟩

/-- Witness for C9: capacity 1024, a state with cursor 8 (reached by one
8-byte allocation), three further allocations, reset to the mark, and an
8-byte aligned-8 re-allocation landing at offset 8 = the mark. -/
theorem c9_amended_witness :
    defaultedAlign 8 &&& (defaultedAlign 8 - 1) = 0
    ∧ b__roundUpPow2 (tempMark { initTempMemStats with currBytesAlloced := 8 })
        (defaultedAlign 8) + 16 ≤ 1024
    ∧ (runTallocPtr (talloc 1024 16 8 site0 0 9
          (tempResetBody (tempMark { initTempMemStats with currBytesAlloced := 8 })
            (tallocSeq 1024
              [{ size := 16, align := 8, site := site0, now := 0, addr := 1 },
               { size := 4, align := 4, site := site0, now := 0, addr := 2 },
               { size := 32, align := 8, site := site0, now := 0, addr := 3 }]
              ({ initTempMemStats with currBytesAlloced := 8 }, initHeapState)).1)
          initHeapState)
        = some (TPtr.arena (b__roundUpPow2
            (tempMark { initTempMemStats with currBytesAlloced := 8 }) (defaultedAlign 8)))) :=
  ⟨by decide, by decide,
   (c9_amended_reset_reuses_aligned_offset 1024
      { initTempMemStats with currBytesAlloced := 8 }
      initHeapState initHeapState initHeapState
      [{ size := 16, align := 8, site := site0, now := 0, addr := 1 },
       { size := 4, align := 4, site := site0, now := 0, addr := 2 },
       { size := 32, align := 8, site := site0, now := 0, addr := 3 }]
      16 8 site0 site0 0 0 9 9 (by decide) (by decide)).2.2.1⟩

/-- Claim C10, amended: every arena allocation of NONZERO size that overflows
obtains its fallback memory through the diagnostic heap allocator (the
intercepted malloc): the heap tracker's totalNumAllocs grows by 1, a block of
the requested size appears in the registry (which keeps an anchor), and the
arena statistics are unchanged except for `totalNumLeaks` and
`totalBytesLeaked` -- in particular the cursor, totalNumAllocs,
totalBytesAlloced, currBytesAlloced and maxBytesAlloced of the arena are
untouched (pinned by the record-update equation). -/
theorem c10_amended_overflow_fallback_tracked
    (cap size align now addr : Nat) (site : Site) (t : TempMemStats) (h : HeapState)
    (hsz : 0 < size)
    (hpow : defaultedAlign align &&& (defaultedAlign align - 1) = 0)
    (hovf : cap < b__roundUpPow2 t.currBytesAlloced (defaultedAlign align) + size) :
    talloc cap size align site now addr t h =
      .ok (some (TPtr.heap addr),
           { t with totalNumLeaks := t.totalNumLeaks + 1,
                    totalBytesLeaked := t.totalBytesLeaked + size },
           (debugAlloc size site now addr h).2)
    ∧ (debugAlloc size site now addr h).2.stats.totalNumAllocs
        = h.stats.totalNumAllocs + 1
    ∧ (hlookup (debugAlloc size site now addr h).2.heap addr).map (fun b => b.size)
        = some size
    ∧ (debugAlloc size site now addr h).2.firstHeapBlock.isSome = true := by
  have hn' : size ≠ 0 := Nat.pos_iff_ne_zero.mp hsz
  refine ⟨?_, ?_, ?_, debugAlloc_firstHeapBlock_isSome size site now addr h hn'⟩
  · simp only [talloc]
    rw [hpow]
    simp only [bne_self_eq_false, Bool.false_eq_true, if_false]
    rw [if_pos hovf, debugAlloc_fst size site now addr h hn']
    rfl
  · rw [debugAlloc_stats size site now addr h hn']
  · obtain ⟨b, hb, hbp⟩ :=
      Option.map_eq_some'.mp (debugAlloc_lookup_self size site now addr h hn')
    simp only [Prod.mk.injEq] at hbp
    rw [hb]
    simp [hbp.1]

/-- Witness for C10: capacity 1024, cursor at 600, a 600-byte aligned-8
request overflowing into heap address 7. -/
theorem c10_amended_witness :
    0 < 600
    ∧ defaultedAlign 8 &&& (defaultedAlign 8 - 1) = 0
    ∧ 1024 < b__roundUpPow2
        ({ initTempMemStats with currBytesAlloced := 600 } : TempMemStats).currBytesAlloced
        (defaultedAlign 8) + 600
    ∧ (talloc 1024 600 8 site0 0 7 { initTempMemStats with currBytesAlloced := 600 }
          initHeapState =
        .ok (some (TPtr.heap 7),
             { { initTempMemStats with currBytesAlloced := 600 } with
                  totalNumLeaks :=
                    ({ initTempMemStats with currBytesAlloced := 600 } : TempMemStats).totalNumLeaks + 1,
                  totalBytesLeaked :=
                    ({ initTempMemStats with currBytesAlloced := 600 } : TempMemStats).totalBytesLeaked + 600 },
             (debugAlloc 600 site0 0 7 initHeapState).2)) :=
  ⟨by decide, by decide, by decide,
   (c10_amended_overflow_fallback_tracked 1024 600 8 0 7 site0
      { initTempMemStats with currBytesAlloced := 600 } initHeapState
      (by decide) (by decide) (by decide)).1⟩

end BMem
